import Mathlib

/-!
Shallow embedding of the thread-lifecycle layer of this repository:
  src/src/ddsrt/src/threads.c                 (attribute defaults)
  src/src/ddsrt/src/threads/posix/threads.c   (POSIX backend)
The embedding follows the Linux/glibc configuration of the POSIX backend
(the non-Zephyr, non-VxWorks preprocessor branches) except where a theorem
explicitly targets the QNX branch of the same file.  OS primitives
(pthread calls, sigprocmask, opendir, fopen) are modelled by explicit
oracle inputs recording whether each native call succeeds and what it
returns; machine integers are Nat/Int with explicit truncation where the
code casts.
-/

/- Return codes, values as in dds/ddsrt/retcode.h (header is not under src/;
   only the concrete distinct values are used here). -/

def DDS_RETCODE_OK : Int := 0

def DDS_RETCODE_ERROR : Int := -1

def DDS_RETCODE_UNSUPPORTED : Int := -2

def DDS_RETCODE_OUT_OF_RESOURCES : Int := -5

def DDS_RETCODE_NOT_ENOUGH_SPACE : Int := -57

def DDS_RETCODE_NOT_FOUND : Int := -59

/- Platform constants for the Linux/glibc configuration. -/

def SCHED_OTHER : Int := 0

def SCHED_FIFO : Int := 1

def SIGXCPU : Nat := 24

def CPU_SETSIZE : Nat := 1024

def PTHREAD_STACK_MIN : Nat := 16384

/-! ## Cleanup stack (threads.c lines 732-840)

The thread-specific value associated with thread_cleanup_key is the head of
a singly linked chain of thread_cleanup_t records {routine, arg, prev}.
The chain is modelled as a List of (routine, arg) pairs, head first; routine
and argument values are abstract.  ddsrt_calloc and pthread_setspecific are
fallible and modelled by Boolean oracles.  Each operation returns the dds
return code, the new chain, and the list of records whose routine it
invoked, in invocation order. -/

def ddsrt_thread_cleanup_push {α β : Type} (alloc_ok setspecific_ok : Bool)
    (routine : α) (arg : β) (stack : List (α × β)) : Int × List (α × β) :=
  if alloc_ok then
    -- tail->prev := current head; tail->routine := routine; tail->arg := arg
    if setspecific_ok then
      (DDS_RETCODE_OK, (routine, arg) :: stack)
    else
      -- pthread_setspecific failed: the record is freed, the head is unchanged
      (DDS_RETCODE_OUT_OF_RESOURCES, stack)
  else
    -- ddsrt_calloc returned NULL
    (DDS_RETCODE_OUT_OF_RESOURCES, stack)

def ddsrt_thread_cleanup_pop {α β : Type} (setspecific_ok : Bool) (execute : Bool)
    (stack : List (α × β)) : Int × List (α × β) × List (α × β) :=
  match stack with
  | [] =>
    -- pthread_getspecific returned NULL: nothing to do
    (DDS_RETCODE_OK, [], [])
  | tail :: prev =>
    if setspecific_ok then
      (DDS_RETCODE_OK, prev, if execute then [tail] else [])
    else
      -- head not replaced, routine not invoked, record not freed
      (DDS_RETCODE_OUT_OF_RESOURCES, tail :: prev, [])

/-- thread_cleanup_fini (threads.c lines 807-822): while-loop that walks the
chain from the head, invoking each routine with its argument and freeing the
record; result is the invocation sequence. -/
def thread_cleanup_fini {α β : Type} : List (α × β) → List (α × β)
  | [] => []
  | tail :: prev => tail :: thread_cleanup_fini prev

/-- ddsrt_thread_fini (threads.c lines 830-840): if the thread-specific head
is non-NULL, run thread_cleanup_fini on it and reset the head to NULL.
Result is (invocation sequence, new chain). -/
def ddsrt_thread_fini {α β : Type} : List (α × β) → List (α × β) × List (α × β)
  | [] => ([], [])
  | tail :: prev => (thread_cleanup_fini (tail :: prev), [])

/-! ## Trampoline and join (threads.c lines 190-235 and 524-546)

The user routine has C type uint32_t (*)(void *); its value is represented
as a Nat reduced mod 2 ^ 32 at the return boundary.  The trampoline widens
the result to uintptr_t (64-bit) and returns it as the thread result, which
pthread_join hands back to ddsrt_thread_join; the latter truncates it to
uint32_t when the caller passed a non-NULL result pointer. -/

structure thread_context_t (α : Type) where
  name : String
  routine : α → Nat
  arg : α

/-- os_startRoutineWrapper: set the thread name, run the user routine, free
the context, return the result cast through uintptr_t and void pointer. -/
def os_startRoutineWrapper {α : Type} (context : thread_context_t α) : Nat :=
  ((context.routine context.arg) % 2 ^ 32) % 2 ^ 64

/-- ddsrt_thread_join: pthread_join success is an oracle; vthread_result is
the 64-bit value the target thread returned; want_result says whether the
thread_result output pointer is non-NULL. -/
def ddsrt_thread_join (join_ok : Bool) (vthread_result : Nat) (want_result : Bool) :
    Int × Option Nat :=
  if join_ok then
    (DDS_RETCODE_OK, if want_result then some (vthread_result % 2 ^ 32) else none)
  else
    (DDS_RETCODE_ERROR, none)

/-! ## Thread enumeration, Linux branch (threads.c lines 548-577)

The directory /proc/self/task is modelled as the list of entry names the
readdir loop observes, in order; opendir success is an oracle.  Each numeric
entry name is one live thread of the process.  The "%ld%n" conversion of
sscanf skips leading whitespace, accepts an optional sign and at least one
decimal digit, and the code additionally requires that it consumed the whole
name (d_name[pos] == 0).  Overflow of long is not modelled (task directory
entries are small). -/

def sscanf_isspace (c : Char) : Bool :=
  c = ' ' ∨ c = '\t' ∨ c = '\n' ∨ c = '\r' ∨ c = '\x0b' ∨ c = '\x0c'

def decimal_digits_val (ds : List Char) : Nat :=
  ds.foldl (fun a c => 10 * a + (c.toNat - 48)) 0

/-- The "%ld" conversion applied to the remaining characters: value parsed
and characters left over, or none when no digit could be matched. -/
def sscanf_ld (cs : List Char) : Option (Int × List Char) :=
  let cs1 := cs.dropWhile sscanf_isspace
  let core : List Char → Option (Int × List Char) := fun l =>
    let ds := l.takeWhile Char.isDigit
    if ds = [] then none
    else some ((decimal_digits_val ds : Int), l.dropWhile Char.isDigit)
  match cs1 with
  | '-' :: rest => (core rest).map (fun p => (-p.1, p.2))
  | '+' :: rest => core rest
  | _ => core cs1

/-- sscanf (d_name, "%ld%n", &tid, &pos) == 1 combined with the check
d_name[pos] == 0: the whole name is one long integer. -/
def sscanf_ld_whole (s : String) : Option Int :=
  match sscanf_ld s.toList with
  | some (v, []) => some v
  | _ => none

/-- An entry name the readdir loop skips: "." or "..". -/
def dirent_is_dot (e : String) : Bool :=
  e = "." ∨ e = ".."

/-- The readdir loop of ddsrt_thread_list (Linux): n counts numeric entries,
identifiers are stored only while (size_t) n < size.  Returns the final n
(DDS_RETCODE_ERROR on a malformed entry) and the stored identifiers. -/
def thread_list_loop : List String → Int → Nat → List Int → Int × List Int
  | [], n, _, tids => (n, tids)
  | e :: rest, n, size, tids =>
    if dirent_is_dot e then
      thread_list_loop rest n size tids
    else
      match sscanf_ld_whole e with
      | none => (DDS_RETCODE_ERROR, tids)
      | some tid =>
        thread_list_loop rest (n + 1) size
          (if n.toNat < size then tids ++ [tid] else tids)

def ddsrt_thread_list (opendir_ok : Bool) (entries : List String) (size : Nat) :
    Int × List Int :=
  if opendir_ok then
    let r := thread_list_loop entries 0 size []
    -- if there were no threads, something must have gone badly wrong
    (if r.1 = 0 then DDS_RETCODE_ERROR else r.1, r.2)
  else
    (DDS_RETCODE_ERROR, [])

/-! ## Thread enumeration, QNX branch (threads.c lines 612-650)

procfs gives num_threads; the for-loop stores consecutive identifiers
starting at 1 while (size_t) n < size and breaks as soon as n reaches size,
so the returned n is min num_threads size. -/

def ddsrt_thread_list_qnxnto_loop (num_threads : Nat) (size : Nat) :
    Nat × List Int :=
  (min num_threads size,
   List.map (fun i : Nat => (i : Int) + 1) (List.range (min num_threads size)))

def ddsrt_thread_list_qnxnto (open_ok devctl_ok : Bool) (num_threads : Nat)
    (size : Nat) : Int × List Int :=
  if open_ok then
    if devctl_ok then
      let r := ddsrt_thread_list_qnxnto_loop num_threads size
      (if r.1 = 0 then DDS_RETCODE_ERROR else (r.1 : Int), r.2)
    else
      (DDS_RETCODE_ERROR, [])
  else
    (DDS_RETCODE_NOT_FOUND, [])

/-! ## Remote name lookup, Linux branch (threads.c lines 579-610)

The path "/proc/self/task/%lu/stat" is written with snprintf into a 100-byte
buffer; snprintf returns the formatted length.  The stat file contents (when
the thread is alive) are a character list; a dead, recycled or never-existing
identifier makes fopen fail, modelled as fopen_result = none. -/

/-- Number of decimal digits of the %lu rendering of n. -/
def decimal_len (n : Nat) : Nat := Nat.log 10 n + 1

/-- snprintf (file, sizeof (file), "/proc/self/task/%lu/stat", tid):
"/proc/self/task/" has 16 characters and "/stat" has 5. -/
def stat_path_len (tid : Nat) : Nat := 16 + decimal_len tid + 5

/-- The second fgetc loop: copy characters into name while namepos + 1 < size,
remembering at each right parenthesis the position the terminating NUL will
be written to (namelen).  Returns (namelen, buffer). -/
def getname_scan (size : Nat) : List Char → Nat → Nat → List Char → Nat × List Char
  | [], namelen, _, buf => (namelen, buf)
  | c :: rest, namelen, namepos, buf =>
    let namelen1 := if c = ')' then namepos else namelen
    if namepos + 1 < size then
      getname_scan size rest namelen1 (namepos + 1) (buf ++ [c])
    else
      getname_scan size rest namelen1 namepos buf

def ddsrt_thread_getname_anythread (tid : Nat) (fopen_result : Option (List Char))
    (size : Nat) : Int × List Char :=
  let pos := stat_path_len tid
  if 100 ≤ pos then
    (DDS_RETCODE_ERROR, [])
  else
    match fopen_result with
    | none => (DDS_RETCODE_NOT_FOUND, [])
    | some cs =>
      -- first loop: consume everything up to and including the first left
      -- parenthesis
      let rest := ((cs.dropWhile (fun c => c ≠ '(')).drop 1)
      let r := getname_scan size rest 0 0 []
      -- name[namelen] = 0 truncates the buffer at namelen (when size > 0)
      (DDS_RETCODE_OK, if 0 < size then r.2.take r.1 else r.2)

/-! ## Thread creation (threads.c lines 255-479, non-Zephyr branches,
Linux/glibc affinity support; threads.c lines 16-26 of the common file for
the attribute defaults)

Every fallible pthread call is an oracle Boolean; pthread_getschedparam on
the creator yields its ambient priority self_param; sched_get_priority_min
and sched_get_priority_max are oracle functions of the policy; the signal
mask of the creator is a predicate on signal numbers.  The result records
the return code together with the observable effects the claims are about:
which scheduling calls were made, the priority handed to
pthread_attr_setschedparam, whether the invalid-priority warning was
logged, whether pthread_create was reached, the mask in force during the
spawn, the mask left in force when ddsrt_thread_create returns, and whether
the creator freed the context (failure path). -/

inductive ddsrt_sched_t where
  | DDSRT_SCHED_DEFAULT
  | DDSRT_SCHED_REALTIME
  | DDSRT_SCHED_TIMESHARE
deriving DecidableEq

structure ddsrt_threadattr_t where
  schedClass : ddsrt_sched_t
  schedPriority : Int
  schedAffinitySet : List Nat
  stackSize : Nat

/-- ddsrt_threadattr_init (src/src/ddsrt/src/threads.c). -/
def ddsrt_threadattr_init : ddsrt_threadattr_t :=
  { schedClass := .DDSRT_SCHED_DEFAULT, schedPriority := 0,
    schedAffinitySet := [], stackSize := 0 }

structure CreateEnv where
  attr_init_ok : Bool
  setscope_ok : Bool
  setdetach_ok : Bool
  setstacksize_ok : Bool
  getschedparam_ok : Bool
  self_param : Int
  setschedpolicy_ok : Bool
  prio_min : Int → Int
  prio_max : Int → Int
  setschedparam_ok : Bool
  setinherit_ok : Bool
  setaffinity_ok : Bool
  create_ok : Bool
  sigmask0 : Nat → Bool

structure CreateResult where
  ret : Int
  called_getschedparam : Bool := false
  called_setschedpolicy : Bool := false
  called_setschedparam : Bool := false
  applied_priority : Option Int := none
  warned_priority : Bool := false
  spawn_attempted : Bool := false
  mask_at_spawn : Option (Nat → Bool) := none
  final_mask : Nat → Bool
  ctx_freed_by_creator : Bool := false

/-- Observable state of the scheduling-configuration section, threaded into
the later stages and into error results raised after it. -/
structure SchedObs where
  called_getschedparam : Bool
  called_setschedpolicy : Bool
  called_setschedparam : Bool
  applied_priority : Option Int
  warned_priority : Bool

/-- goto err before pthread_create was reached: pthread_attr_destroy and
return DDS_RETCODE_ERROR; the signal mask was never touched. -/
def create_err (env : CreateEnv) (so : SchedObs) : CreateResult :=
  { ret := DDS_RETCODE_ERROR,
    called_getschedparam := so.called_getschedparam,
    called_setschedpolicy := so.called_setschedpolicy,
    called_setschedparam := so.called_setschedparam,
    applied_priority := so.applied_priority,
    warned_priority := so.warned_priority,
    final_mask := env.sigmask0 }

def sched_obs_none : SchedObs :=
  { called_getschedparam := false, called_setschedpolicy := false,
    called_setschedparam := false, applied_priority := none,
    warned_priority := false }

/-- Stack-size adjustment of lines 306-311: a nonzero request below
PTHREAD_STACK_MIN is raised to PTHREAD_STACK_MIN before
pthread_attr_setstacksize. -/
def thread_create_stacksize (stackSize : Nat) : Nat :=
  if stackSize ≠ 0 ∧ stackSize < PTHREAD_STACK_MIN then PTHREAD_STACK_MIN
  else stackSize

/-- Lines 443-471: context allocation (ddsrt_malloc and ddsrt_strdup are not
checked by the code), signal blocking, pthread_create, and the two exits.
sigfillset followed by sigdelset SIGXCPU blocks every signal but SIGXCPU on
top of the saved creator mask oset; on success SIG_SETMASK restores oset,
on failure goto err_create frees the context and returns without any
further sigprocmask call. -/
def create_spawn (env : CreateEnv) (so : SchedObs) : CreateResult :=
  let oset := env.sigmask0
  let blocked : Nat → Bool := fun s => env.sigmask0 s || (s != SIGXCPU)
  if env.create_ok then
    { ret := DDS_RETCODE_OK,
      called_getschedparam := so.called_getschedparam,
      called_setschedpolicy := so.called_setschedpolicy,
      called_setschedparam := so.called_setschedparam,
      applied_priority := so.applied_priority,
      warned_priority := so.warned_priority,
      spawn_attempted := true,
      mask_at_spawn := some blocked,
      final_mask := oset }
  else
    { ret := DDS_RETCODE_ERROR,
      called_getschedparam := so.called_getschedparam,
      called_setschedpolicy := so.called_setschedpolicy,
      called_setschedparam := so.called_setschedparam,
      applied_priority := so.applied_priority,
      warned_priority := so.warned_priority,
      spawn_attempted := true,
      mask_at_spawn := some blocked,
      final_mask := blocked,
      ctx_freed_by_creator := true }

/-- Lines 418-441: affinity configuration (Linux/glibc branch); a CPU id at
or above CPU_SETSIZE, or a pthread_attr_setaffinity_np failure, is goto
err. -/
def create_affinity (env : CreateEnv) (tattr : ddsrt_threadattr_t)
    (so : SchedObs) : CreateResult :=
  if 0 < tattr.schedAffinitySet.length then
    if tattr.schedAffinitySet.any (fun cpu => CPU_SETSIZE ≤ cpu) then
      create_err env so
    else if env.setaffinity_ok then
      create_spawn env so
    else
      create_err env so
  else
    create_spawn env so

/-- The priority range test of line 394: the requested priority is kept when
it lies in [sched_get_priority_min policy, sched_get_priority_max policy],
otherwise a warning is logged and the ambient sched_param priority read from
the creator is kept. -/
def priority_in_range (env : CreateEnv) (tattr : ddsrt_threadattr_t)
    (policy : Int) : Prop :=
  env.prio_min policy ≤ tattr.schedPriority ∧
  tattr.schedPriority ≤ env.prio_max policy

instance (env : CreateEnv) (tattr : ddsrt_threadattr_t) (policy : Int) :
    Decidable (priority_in_range env tattr policy) :=
  inferInstanceAs (Decidable (_ ∧ _))

/-- Scheduling observations at the point pthread_attr_setschedparam is
reached: policy was set, and the priority handed over is the requested one
when in range, the ambient one (with a warning) otherwise. -/
def sched_obs_prio (env : CreateEnv) (tattr : ddsrt_threadattr_t)
    (policy : Int) : SchedObs :=
  { called_getschedparam := true, called_setschedpolicy := true,
    called_setschedparam := true,
    applied_priority :=
      some (if priority_in_range env tattr policy then tattr.schedPriority
            else env.self_param),
    warned_priority := decide (¬ priority_in_range env tattr policy) }

def create_sched_nondefault (env : CreateEnv) (tattr : ddsrt_threadattr_t)
    (policy : Int) : CreateResult :=
  if env.getschedparam_ok then
    if env.setschedpolicy_ok then
      if env.setschedparam_ok then
        if env.setinherit_ok then
          create_affinity env tattr (sched_obs_prio env tattr policy)
        else
          create_err env (sched_obs_prio env tattr policy)
      else
        create_err env (sched_obs_prio env tattr policy)
    else
      create_err env
        { called_getschedparam := true, called_setschedpolicy := true,
          called_setschedparam := false, applied_priority := none,
          warned_priority := false }
  else
    create_err env
      { called_getschedparam := true, called_setschedpolicy := false,
        called_setschedparam := false, applied_priority := none,
        warned_priority := false }

/-- Lines 337-416: scheduling section.  DDSRT_SCHED_DEFAULT with a nonzero
priority is rejected outright with no scheduling call; DDSRT_SCHED_DEFAULT
with priority 0 makes no scheduling call at all; the other classes map to
SCHED_FIFO and SCHED_OTHER. -/
def create_sched (env : CreateEnv) (tattr : ddsrt_threadattr_t) : CreateResult :=
  match tattr.schedClass with
  | .DDSRT_SCHED_DEFAULT =>
    if tattr.schedPriority ≠ 0 then
      create_err env sched_obs_none
    else
      create_affinity env tattr sched_obs_none
  | .DDSRT_SCHED_REALTIME => create_sched_nondefault env tattr SCHED_FIFO
  | .DDSRT_SCHED_TIMESHARE => create_sched_nondefault env tattr SCHED_OTHER

def ddsrt_thread_create (env : CreateEnv) (tattr : ddsrt_threadattr_t) :
    CreateResult :=
  if env.attr_init_ok then
    if env.setscope_ok then
      if env.setdetach_ok then
        if tattr.stackSize ≠ 0 ∧ env.setstacksize_ok = false then
          create_err env sched_obs_none
        else
          create_sched env tattr
      else
        create_err env sched_obs_none
    else
      create_err env sched_obs_none
  else
    { ret := DDS_RETCODE_ERROR, final_mask := env.sigmask0 }

/-! ## Theorems -/

/-- Helper: the exit-time unwind loop invokes exactly the records of the
chain, head (most recently pushed) first. -/
theorem thread_cleanup_fini_id {α β : Type} :
    ∀ s : List (α × β), thread_cleanup_fini s = s
  | [] => rfl
  | tail :: prev => by
    rw [thread_cleanup_fini, thread_cleanup_fini_id prev]

/-- C5: on a thread with an empty cleanup stack, cleanup_push A then
cleanup_push B then cleanup_pop (execute) invokes exactly B, the next
cleanup_pop (execute) invokes exactly A, and a further cleanup_pop on the
empty stack invokes nothing and returns OK. -/
theorem cleanup_pop_strict_lifo {α β : Type} (A B : α × β) :
    ddsrt_thread_cleanup_push true true A.1 A.2 ([] : List (α × β)) =
      (DDS_RETCODE_OK, [A]) ∧
    ddsrt_thread_cleanup_push true true B.1 B.2 [A] = (DDS_RETCODE_OK, [B, A]) ∧
    ddsrt_thread_cleanup_pop true true [B, A] = (DDS_RETCODE_OK, [A], [B]) ∧
    ddsrt_thread_cleanup_pop true true [A] = (DDS_RETCODE_OK, ([] : List (α × β)), [A]) ∧
    ddsrt_thread_cleanup_pop true true ([] : List (α × β)) =
      (DDS_RETCODE_OK, ([] : List (α × β)), ([] : List (α × β))) := by
  refine ⟨?_, ?_, rfl, rfl, rfl⟩ <;>
    simp [ddsrt_thread_cleanup_push]

/-- C6: at thread termination the exit-time hook thread_cleanup_fini unwinds
the whole remaining chain, invoking every record exactly once in LIFO order;
in particular a thread that pushed A then B and terminates without popping
has B invoked first, then A. -/
theorem thread_cleanup_fini_unwinds_lifo {α β : Type} (s : List (α × β))
    (A B : α × β) :
    thread_cleanup_fini s = s ∧
    thread_cleanup_fini
      (ddsrt_thread_cleanup_push true true B.1 B.2
        (ddsrt_thread_cleanup_push true true A.1 A.2 ([] : List (α × β))).2).2 =
      [B, A] := by
  refine ⟨thread_cleanup_fini_id s, ?_⟩
  simp [ddsrt_thread_cleanup_push, thread_cleanup_fini]

/-- C8: when the allocation of the cleanup record fails, cleanup_push
returns OUT_OF_RESOURCES and the cleanup stack is exactly as before. -/
theorem cleanup_push_alloc_failure_atomic {α β : Type} (setspecific_ok : Bool)
    (routine : α) (arg : β) (stack : List (α × β)) :
    ddsrt_thread_cleanup_push false setspecific_ok routine arg stack =
      (DDS_RETCODE_OUT_OF_RESOURCES, stack) := by
  simp [ddsrt_thread_cleanup_push]

/-- C10: ddsrt_thread_fini unwinds all records and resets the
thread-specific head to empty, so a second ddsrt_thread_fini (and the key
destructor running on the now-empty association) invokes nothing, and across
both unwinds every record is invoked exactly once. -/
theorem ddsrt_thread_fini_idempotent_unwind {α β : Type} (s : List (α × β)) :
    (ddsrt_thread_fini s).2 = [] ∧
    ddsrt_thread_fini ((ddsrt_thread_fini s).2) =
      (([] : List (α × β)), ([] : List (α × β))) ∧
    thread_cleanup_fini ((ddsrt_thread_fini s).2) = [] ∧
    (ddsrt_thread_fini s).1 ++ (ddsrt_thread_fini ((ddsrt_thread_fini s).2)).1 = s := by
  cases s with
  | nil => exact ⟨rfl, rfl, rfl, rfl⟩
  | cons tail prev =>
    refine ⟨rfl, rfl, rfl, ?_⟩
    simp [ddsrt_thread_fini, thread_cleanup_fini, thread_cleanup_fini_id]

/-- C7: for a successful create-then-join pair, pthread_join hands
ddsrt_thread_join the value the spawned thread returned, which is the
trampoline result os_startRoutineWrapper for the created context (line 234:
return the uint32_t result of context->routine cast through uintptr_t and
void pointer, a lossless widening); ddsrt_thread_join (success oracle true,
non-NULL result pointer) then returns OK and stores exactly the low 32 bits
(value modulo 2 ^ 32) of the value the entry routine returned (line 544:
(uint32_t)(uintptr_t) vthread_result). -/
theorem join_returns_low32_of_routine {α : Type} (context : thread_context_t α)
    (join_ok : Bool) (h : join_ok = true) :
    os_startRoutineWrapper context = context.routine context.arg % 2 ^ 32 ∧
    ddsrt_thread_join join_ok (os_startRoutineWrapper context) true =
      (DDS_RETCODE_OK, some (context.routine context.arg % 2 ^ 32)) := by
  subst h
  have hwrap : os_startRoutineWrapper context =
      context.routine context.arg % 2 ^ 32 := by
    unfold os_startRoutineWrapper
    omega
  refine ⟨hwrap, ?_⟩
  rw [ddsrt_thread_join, hwrap, if_pos rfl, if_pos rfl]
  refine Prod.ext rfl ?_
  simp only [Option.some.injEq]
  omega

/-- Witness for C7 at a concrete routine: incrementing 3 by 5 joins as 8. -/
theorem join_returns_low32_of_routine_witness :
    ddsrt_thread_join true
      (os_startRoutineWrapper
        { name := "worker", routine := fun n => n + 5, arg := (3 : Nat) }) true =
      (DDS_RETCODE_OK, some 8) := by
  have h := (@join_returns_low32_of_routine Nat
    { name := "worker", routine := fun n => n + 5, arg := (3 : Nat) } true rfl).2
  simpa using h

/-- Helper: the %lu rendering of a 64-bit value has at most 20 digits, so
the snprintf of "/proc/self/task/%lu/stat" always fits the 100-byte buffer
and the ERROR branch of ddsrt_thread_getname_anythread is unreachable. -/
theorem stat_path_len_lt_100 (tid : Nat) (h : tid < 2 ^ 64) :
    stat_path_len tid < 100 := by
  unfold stat_path_len decimal_len
  rcases Nat.eq_zero_or_pos tid with h0 | h0
  · subst h0; simp [Nat.log]
  · have hlog : Nat.log 10 tid < 20 :=
      Nat.log_lt_of_lt_pow h0.ne' (lt_of_lt_of_le h (by norm_num))
    omega

/-- C9: ddsrt_thread_getname_anythread applied to an identifier that does
not refer to a live thread of the process (its /proc/self/task stat file
does not open, whether it never existed or disappeared after enumeration)
returns NOT_FOUND, never ERROR. -/
theorem getname_anythread_dead_tid_not_found (tid : Nat) (size : Nat)
    (h : tid < 2 ^ 64) :
    ddsrt_thread_getname_anythread tid none size = (DDS_RETCODE_NOT_FOUND, []) := by
  have hlt := stat_path_len_lt_100 tid h
  unfold ddsrt_thread_getname_anythread
  simp [Nat.not_le.mpr hlt]

/-- Witness for C9 at a concrete never-existing identifier. -/
theorem getname_anythread_dead_tid_not_found_witness :
    ddsrt_thread_getname_anythread 123456 none 32 = (DDS_RETCODE_NOT_FOUND, []) :=
  getname_anythread_dead_tid_not_found 123456 32 (by norm_num)

/-- Live threads of the process as the Linux enumeration sees them: the
non-dot entries of /proc/self/task. -/
def live_thread_count (entries : List String) : Nat :=
  (entries.filter (fun e => ! dirent_is_dot e)).length

/-- Helper: invariant of the readdir loop.  Starting from a count k and a
buffer already holding min k size identifiers, a directory whose non-dot
entries all parse adds every live entry to the count and stores exactly
those that fit below the capacity. -/
theorem thread_list_loop_spec (entries : List String) :
    ∀ (k : Nat) (size : Nat) (tids : List Int),
    (∀ e ∈ entries, dirent_is_dot e = true ∨ (sscanf_ld_whole e).isSome = true) →
    tids.length = min k size →
    (thread_list_loop entries (k : Int) size tids).1 =
      (k : Int) + (live_thread_count entries : Int) ∧
    (thread_list_loop entries (k : Int) size tids).2.length =
      min (k + live_thread_count entries) size := by
  induction entries with
  | nil =>
    intro k size tids hval htids
    simp [thread_list_loop, live_thread_count, htids]
  | cons e rest ih =>
    intro k size tids hval htids
    cases hd : dirent_is_dot e with
    | true =>
      have h := ih k size tids (fun x hx => hval x (List.mem_cons_of_mem _ hx)) htids
      simpa [thread_list_loop, hd, live_thread_count] using h
    | false =>
      have hsome : (sscanf_ld_whole e).isSome = true :=
        (hval e (List.mem_cons_self _ _)).resolve_left (by simp [hd])
      obtain ⟨tid, htid⟩ := Option.isSome_iff_exists.mp hsome
      have hval2 : ∀ x ∈ rest, dirent_is_dot x = true ∨ (sscanf_ld_whole x).isSome = true :=
        fun x hx => hval x (List.mem_cons_of_mem _ hx)
      have hlen2 : (if (k : Int).toNat < size then tids ++ [tid] else tids).length =
          min (k + 1) size := by
        by_cases hk : k < size
        · simp [Int.toNat_natCast, hk, htids]
          omega
        · simp [Int.toNat_natCast, hk, htids]
          omega
      have h := ih (k + 1) size (if (k : Int).toNat < size then tids ++ [tid] else tids)
        hval2 hlen2
      have hcast : ((k : Int) + 1) = ((k + 1 : Nat) : Int) := by push_cast; ring
      have hlc : live_thread_count (e :: rest) = live_thread_count rest + 1 := by
        simp [live_thread_count, hd]
      constructor
      · rw [thread_list_loop]
        simp only [hd, Bool.false_eq_true, if_false, htid, hcast]
        rw [h.1, hlc]
        push_cast
        ring
      · rw [thread_list_loop]
        simp only [hd, Bool.false_eq_true, if_false, htid, hcast]
        rw [h.2, hlc]
        omega

/-- C2 (amended): the Linux ddsrt_thread_list writes at most size thread
identifiers but returns the true total count of live threads even when it
exceeds the capacity, including for capacity 0 with at least one live
thread; the QNX ddsrt_thread_list instead stops counting at the capacity,
returning min num_threads size, and hence ERROR when the capacity is 0. -/
theorem thread_list_capacity_contract :
    (∀ (entries : List String) (size : Nat),
      (∀ e ∈ entries, dirent_is_dot e = true ∨ (sscanf_ld_whole e).isSome = true) →
      1 ≤ live_thread_count entries →
      (ddsrt_thread_list true entries size).1 = (live_thread_count entries : Int) ∧
      (ddsrt_thread_list true entries size).2.length =
        min (live_thread_count entries) size) ∧
    (∀ (num_threads size : Nat),
      (ddsrt_thread_list_qnxnto true true num_threads size).1 =
        (if min num_threads size = 0 then DDS_RETCODE_ERROR
         else (min num_threads size : Int)) ∧
      (ddsrt_thread_list_qnxnto true true num_threads size).2.length =
        min num_threads size) := by
  constructor
  · intro entries size hval hlive
    have h := thread_list_loop_spec entries 0 size [] hval (by simp)
    have hne : ((0 : Int) + (live_thread_count entries : Int)) ≠ 0 := by
      omega
    constructor
    · simp only [ddsrt_thread_list, if_true]
      rw [show ((0 : Nat) : Int) = (0 : Int) from rfl] at h
      rw [h.1]
      simp [hne]
      omega
    · simp only [ddsrt_thread_list, if_true]
      rw [show ((0 : Nat) : Int) = (0 : Int) from rfl] at h
      simpa using h.2
  · intro num_threads size
    constructor
    · by_cases h0 : min num_threads size = 0 <;>
        simp [ddsrt_thread_list_qnxnto, ddsrt_thread_list_qnxnto_loop, h0]
    · have hsnd : (ddsrt_thread_list_qnxnto true true num_threads size).2 =
        List.map (fun i : Nat => (i : Int) + 1) (List.range (min num_threads size)) := rfl
      rw [hsnd, List.length_map, List.length_range]

/-- Counterexample for C2 as stated: on the QNX implementation, a process
with 2 live threads queried with capacity 0 yields ERROR, not the true
count 2. -/
theorem thread_list_qnx_capacity0_counterexample :
    (ddsrt_thread_list_qnxnto true true 2 0).1 = DDS_RETCODE_ERROR ∧
    ¬ (ddsrt_thread_list_qnxnto true true 2 0).1 = 2 := by
  refine ⟨by decide, by decide⟩

/-- Witness for C2 (amended) at concrete inputs: the Linux enumeration of
[".", "..", "17", "42"] with capacity 0 returns 2 and writes nothing. -/
theorem thread_list_capacity_contract_witness :
    (ddsrt_thread_list true [".", "..", "17", "42"] 0).1 = 2 ∧
    (ddsrt_thread_list true [".", "..", "17", "42"] 0).2.length = 0 := by
  have h := thread_list_capacity_contract.1 [".", "..", "17", "42"] 0
    (by decide) (by decide)
  refine ⟨?_, ?_⟩
  · rw [h.1]; decide
  · rw [h.2]; simp

/-- C3: a descriptor with schedClass DEFAULT and a nonzero priority makes
ddsrt_thread_create fail with ERROR without any scheduling policy or
priority call and without spawning a thread (and this also holds on the
earlier error exits, which never reach the scheduling section). -/
theorem create_default_nonzero_priority_rejected (env : CreateEnv)
    (tattr : ddsrt_threadattr_t)
    (hclass : tattr.schedClass = .DDSRT_SCHED_DEFAULT)
    (hpri : tattr.schedPriority ≠ 0) :
    (ddsrt_thread_create env tattr).ret = DDS_RETCODE_ERROR ∧
    (ddsrt_thread_create env tattr).called_getschedparam = false ∧
    (ddsrt_thread_create env tattr).called_setschedpolicy = false ∧
    (ddsrt_thread_create env tattr).called_setschedparam = false ∧
    (ddsrt_thread_create env tattr).applied_priority = none ∧
    (ddsrt_thread_create env tattr).spawn_attempted = false := by
  unfold ddsrt_thread_create
  split_ifs with h1 h2 h3 h4 <;>
    simp [create_sched, hclass, hpri, create_err, sched_obs_none]

/-- Witness environment where every native call succeeds; the ambient
priority of the creator is 10 and every policy has priority range [1, 99]. -/
def env_all_ok : CreateEnv :=
  { attr_init_ok := true, setscope_ok := true, setdetach_ok := true,
    setstacksize_ok := true, getschedparam_ok := true, self_param := 10,
    setschedpolicy_ok := true, prio_min := fun _ => 1, prio_max := fun _ => 99,
    setschedparam_ok := true, setinherit_ok := true, setaffinity_ok := true,
    create_ok := true, sigmask0 := fun _ => false }

/-- Witness for C3: default class with priority 7 is rejected outright. -/
theorem create_default_nonzero_priority_rejected_witness :
    (ddsrt_thread_create env_all_ok
      { schedClass := .DDSRT_SCHED_DEFAULT, schedPriority := 7,
        schedAffinitySet := [], stackSize := 0 }).ret = DDS_RETCODE_ERROR ∧
    (ddsrt_thread_create env_all_ok
      { schedClass := .DDSRT_SCHED_DEFAULT, schedPriority := 7,
        schedAffinitySet := [], stackSize := 0 }).called_getschedparam = false ∧
    (ddsrt_thread_create env_all_ok
      { schedClass := .DDSRT_SCHED_DEFAULT, schedPriority := 7,
        schedAffinitySet := [], stackSize := 0 }).called_setschedpolicy = false ∧
    (ddsrt_thread_create env_all_ok
      { schedClass := .DDSRT_SCHED_DEFAULT, schedPriority := 7,
        schedAffinitySet := [], stackSize := 0 }).called_setschedparam = false ∧
    (ddsrt_thread_create env_all_ok
      { schedClass := .DDSRT_SCHED_DEFAULT, schedPriority := 7,
        schedAffinitySet := [], stackSize := 0 }).applied_priority = none ∧
    (ddsrt_thread_create env_all_ok
      { schedClass := .DDSRT_SCHED_DEFAULT, schedPriority := 7,
        schedAffinitySet := [], stackSize := 0 }).spawn_attempted = false :=
  create_default_nonzero_priority_rejected env_all_ok
    { schedClass := .DDSRT_SCHED_DEFAULT, schedPriority := 7,
      schedAffinitySet := [], stackSize := 0 } rfl (by decide)

/-- C4: for a non-default scheduling class (Realtime mapping to SCHED_FIFO,
Timeshare mapping to SCHED_OTHER), a requested priority outside the valid
range of the mapped policy does not make create fail: a warning is logged
and pthread_attr_setschedparam receives the ambient priority instead, and
with all native calls succeeding and no affinity requested create returns
OK; a priority inside the range is applied as requested with no warning. -/
theorem create_invalid_priority_soft_fallback (env : CreateEnv)
    (tattr : ddsrt_threadattr_t) (policy : Int)
    (h1 : env.attr_init_ok = true) (h2 : env.setscope_ok = true)
    (h3 : env.setdetach_ok = true) (h4 : env.setstacksize_ok = true)
    (h5 : env.getschedparam_ok = true) (h6 : env.setschedpolicy_ok = true)
    (h7 : env.setschedparam_ok = true) (h8 : env.setinherit_ok = true)
    (h9 : tattr.schedAffinitySet = []) (h10 : env.create_ok = true)
    (hpol : (tattr.schedClass = .DDSRT_SCHED_REALTIME ∧ policy = SCHED_FIFO) ∨
            (tattr.schedClass = .DDSRT_SCHED_TIMESHARE ∧ policy = SCHED_OTHER)) :
    (¬ priority_in_range env tattr policy →
      (ddsrt_thread_create env tattr).ret = DDS_RETCODE_OK ∧
      (ddsrt_thread_create env tattr).warned_priority = true ∧
      (ddsrt_thread_create env tattr).applied_priority = some env.self_param ∧
      (ddsrt_thread_create env tattr).spawn_attempted = true) ∧
    (priority_in_range env tattr policy →
      (ddsrt_thread_create env tattr).ret = DDS_RETCODE_OK ∧
      (ddsrt_thread_create env tattr).warned_priority = false ∧
      (ddsrt_thread_create env tattr).applied_priority =
        some tattr.schedPriority) := by
  have hred : ddsrt_thread_create env tattr =
      create_affinity env tattr (sched_obs_prio env tattr policy) := by
    unfold ddsrt_thread_create create_sched create_sched_nondefault
    rcases hpol with ⟨hc, hp⟩ | ⟨hc, hp⟩ <;>
      simp [h1, h2, h3, h4, h5, h6, h7, h8, hc, hp]
  have haff : create_affinity env tattr (sched_obs_prio env tattr policy) =
      create_spawn env (sched_obs_prio env tattr policy) := by
    unfold create_affinity
    simp [h9]
  rw [hred, haff]
  unfold create_spawn
  rw [h10]
  constructor
  · intro hout
    refine ⟨rfl, ?_, ?_, rfl⟩ <;>
      simp [sched_obs_prio, hout]
  · intro hin
    refine ⟨rfl, ?_, ?_⟩ <;>
      simp [sched_obs_prio, hin]

/-- Witness for C4: Realtime with requested priority 1000, outside the range
[1, 99] of env_all_ok, creates OK with a warning and the ambient priority
10; Realtime with requested priority 50 is applied as requested. -/
theorem create_invalid_priority_soft_fallback_witness :
    ((ddsrt_thread_create env_all_ok
      { schedClass := .DDSRT_SCHED_REALTIME, schedPriority := 1000,
        schedAffinitySet := [], stackSize := 0 }).ret = DDS_RETCODE_OK ∧
     (ddsrt_thread_create env_all_ok
      { schedClass := .DDSRT_SCHED_REALTIME, schedPriority := 1000,
        schedAffinitySet := [], stackSize := 0 }).warned_priority = true ∧
     (ddsrt_thread_create env_all_ok
      { schedClass := .DDSRT_SCHED_REALTIME, schedPriority := 1000,
        schedAffinitySet := [], stackSize := 0 }).applied_priority = some 10) ∧
    ((ddsrt_thread_create env_all_ok
      { schedClass := .DDSRT_SCHED_REALTIME, schedPriority := 50,
        schedAffinitySet := [], stackSize := 0 }).ret = DDS_RETCODE_OK ∧
     (ddsrt_thread_create env_all_ok
      { schedClass := .DDSRT_SCHED_REALTIME, schedPriority := 50,
        schedAffinitySet := [], stackSize := 0 }).warned_priority = false ∧
     (ddsrt_thread_create env_all_ok
      { schedClass := .DDSRT_SCHED_REALTIME, schedPriority := 50,
        schedAffinitySet := [], stackSize := 0 }).applied_priority = some 50) := by
  constructor
  · have h := (create_invalid_priority_soft_fallback env_all_ok
      { schedClass := .DDSRT_SCHED_REALTIME, schedPriority := 1000,
        schedAffinitySet := [], stackSize := 0 } SCHED_FIFO
      rfl rfl rfl rfl rfl rfl rfl rfl rfl rfl (Or.inl ⟨rfl, rfl⟩)).1
      (by decide)
    exact ⟨h.1, h.2.1, h.2.2.1⟩
  · have h := (create_invalid_priority_soft_fallback env_all_ok
      { schedClass := .DDSRT_SCHED_REALTIME, schedPriority := 50,
        schedAffinitySet := [], stackSize := 0 } SCHED_FIFO
      rfl rfl rfl rfl rfl rfl rfl rfl rfl rfl (Or.inl ⟨rfl, rfl⟩)).2
      (by decide)
    exact h

/-- Helper: the affinity stage either reaches the spawn stage with its
scheduling observation unchanged or exits through goto err. -/
theorem create_affinity_cases (env : CreateEnv) (tattr : ddsrt_threadattr_t)
    (so : SchedObs) :
    create_affinity env tattr so = create_spawn env so ∨
    create_affinity env tattr so = create_err env so := by
  unfold create_affinity
  split_ifs <;> simp

/-- Helper: the non-default scheduling stage either reaches the spawn stage
or exits through goto err. -/
theorem create_sched_nondefault_cases (env : CreateEnv)
    (tattr : ddsrt_threadattr_t) (policy : Int) :
    (∃ so, create_sched_nondefault env tattr policy = create_spawn env so) ∨
    (∃ so, create_sched_nondefault env tattr policy = create_err env so) := by
  unfold create_sched_nondefault
  split_ifs
  · rcases create_affinity_cases env tattr (sched_obs_prio env tattr policy)
      with h | h
    · exact Or.inl ⟨_, h⟩
    · exact Or.inr ⟨_, h⟩
  all_goals exact Or.inr ⟨_, rfl⟩

/-- Helper: the scheduling stage either reaches the spawn stage or exits
through goto err. -/
theorem create_sched_cases (env : CreateEnv) (tattr : ddsrt_threadattr_t) :
    (∃ so, create_sched env tattr = create_spawn env so) ∨
    (∃ so, create_sched env tattr = create_err env so) := by
  unfold create_sched
  rcases tattr with ⟨cls, pri, aff, ss⟩
  cases cls with
  | DDSRT_SCHED_DEFAULT =>
    by_cases hp : pri ≠ 0
    · rw [if_pos hp]
      exact Or.inr ⟨_, rfl⟩
    · simp only [hp, if_false]
      rcases create_affinity_cases env ⟨.DDSRT_SCHED_DEFAULT, pri, aff, ss⟩
          sched_obs_none with h | h
      · exact Or.inl ⟨_, h⟩
      · exact Or.inr ⟨_, h⟩
  | DDSRT_SCHED_REALTIME => exact create_sched_nondefault_cases env _ SCHED_FIFO
  | DDSRT_SCHED_TIMESHARE => exact create_sched_nondefault_cases env _ SCHED_OTHER

/-- Helper: whenever ddsrt_thread_create reaches the pthread_create call,
its result is exactly a create_spawn outcome for some scheduling
observation. -/
theorem create_reaches_spawn (env : CreateEnv) (tattr : ddsrt_threadattr_t)
    (h : (ddsrt_thread_create env tattr).spawn_attempted = true) :
    ∃ so, ddsrt_thread_create env tattr = create_spawn env so := by
  have hcases :
      (∃ so, ddsrt_thread_create env tattr = create_spawn env so) ∨
      (∃ so, ddsrt_thread_create env tattr = create_err env so) ∨
      ddsrt_thread_create env tattr =
        { ret := DDS_RETCODE_ERROR, final_mask := env.sigmask0 } := by
    unfold ddsrt_thread_create
    split_ifs
    all_goals first
      | exact (create_sched_cases env tattr).imp id (fun h2 => Or.inl h2)
      | exact Or.inr (Or.inl ⟨_, rfl⟩)
      | exact Or.inr (Or.inr rfl)
  rcases hcases with hc | ⟨so, hc⟩ | hc
  · exact hc
  · rw [hc] at h
    exact absurd h (by simp [create_err])
  · rw [hc] at h
    exact absurd h (by simp)

/-- C1 (amended): around pthread_create the creator signal mask is saved
and every signal except SIGXCPU is blocked on top of it; on pthread_create
success the saved mask is restored immediately after the spawn, but on
pthread_create failure ddsrt_thread_create returns ERROR (freeing the
context) with the blocked mask still installed. -/
theorem create_sigmask_window (env : CreateEnv) (tattr : ddsrt_threadattr_t)
    (h : (ddsrt_thread_create env tattr).spawn_attempted = true) :
    (ddsrt_thread_create env tattr).mask_at_spawn =
      some (fun s => env.sigmask0 s || (s != SIGXCPU)) ∧
    ((ddsrt_thread_create env tattr).ret = DDS_RETCODE_OK →
      (ddsrt_thread_create env tattr).final_mask = env.sigmask0) ∧
    ((ddsrt_thread_create env tattr).ret = DDS_RETCODE_ERROR →
      (ddsrt_thread_create env tattr).final_mask =
        (fun s => env.sigmask0 s || (s != SIGXCPU)) ∧
      (ddsrt_thread_create env tattr).ctx_freed_by_creator = true) := by
  obtain ⟨so, hso⟩ := create_reaches_spawn env tattr h
  rw [hso]
  unfold create_spawn
  cases hc : env.create_ok with
  | true =>
    refine ⟨rfl, fun _ => rfl,
      fun hret => absurd hret (by simp [DDS_RETCODE_OK, DDS_RETCODE_ERROR])⟩
  | false =>
    refine ⟨rfl,
      fun hret => absurd hret (by simp [DDS_RETCODE_OK, DDS_RETCODE_ERROR]),
      fun _ => ⟨rfl, rfl⟩⟩

/-- Witness for C1 (amended): in the all-success environment the spawn runs
with everything but SIGXCPU blocked and the empty creator mask is restored
afterwards. -/
theorem create_sigmask_window_witness :
    (ddsrt_thread_create env_all_ok ddsrt_threadattr_init).mask_at_spawn =
      some (fun s => env_all_ok.sigmask0 s || (s != SIGXCPU)) ∧
    (ddsrt_thread_create env_all_ok ddsrt_threadattr_init).final_mask =
      env_all_ok.sigmask0 := by
  have h := create_sigmask_window env_all_ok ddsrt_threadattr_init rfl
  exact ⟨h.1, h.2.1 rfl⟩

/-- Environment identical to env_all_ok except that pthread_create fails. -/
def env_spawn_fails : CreateEnv :=
  { env_all_ok with create_ok := false }

/-- Counterexample for C1 as stated: when pthread_create fails, the creator
prior mask (empty here) is not restored; ddsrt_thread_create returns ERROR
with signal 15 (SIGTERM) still blocked even though it was not blocked
before the call. -/
theorem create_sigmask_not_restored_on_failure :
    (ddsrt_thread_create env_spawn_fails ddsrt_threadattr_init).spawn_attempted
      = true ∧
    (ddsrt_thread_create env_spawn_fails ddsrt_threadattr_init).ret =
      DDS_RETCODE_ERROR ∧
    (ddsrt_thread_create env_spawn_fails ddsrt_threadattr_init).final_mask 15 =
      true ∧
    env_spawn_fails.sigmask0 15 = false :=
  ⟨rfl, rfl, rfl, rfl⟩
